import Mathlib

/-!
Verification of the bamboo endpoint monitor (`src/bamboo_mointor.py`).

The core is the debounced up/down state machine in `main` (lines 103-136):
a loop-carried state `(state, sent_down, consec_up, consec_down)` updated
once per poll cycle from a boolean probe result, emitting at most one
alert event per cycle.  We embed that step as the pure function `observe`,
the probe result classification `bamboo_is_up` over an abstract HTTP
outcome, and the startup sanity checks over an abstract configuration.
-/

/-- The confirmed availability values of the `state` variable
(`"UNKNOWN"`, `"UP"`, `"DOWN"` in the Python source, line 98). -/
inductive Status where
  | unknown
  | up
  | down
deriving DecidableEq, Repr

/-- Alert events emitted by the loop body: the UP alert (line 114-116)
and the DOWN alert (line 129-132). -/
inductive Ev where
  | up
  | down
deriving DecidableEq, Repr

/-- The loop-carried monitor state: `state`, `sent_down`, `consec_up`,
`consec_down` (lines 98-101 of the source). -/
structure MState where
  status : Status
  consecUp : Nat
  consecDown : Nat
  sentDown : Bool
deriving DecidableEq, Repr

/-- The initial state set up before the loop (lines 98-101):
`state = "UNKNOWN"`, `sent_down = False`, `consec_up = 0`, `consec_down = 0`. -/
def initState : MState :=
  { status := Status.unknown, consecUp := 0, consecDown := 0, sentDown := false }

/-- One iteration of the debounce logic of the loop body (lines 106-136),
as a function of the thresholds `CONSECUTIVE_UPS_REQUIRED` (`upTh`) and
`CONSECUTIVE_DOWNS_REQUIRED` (`downTh`), the current state, and the probe
result `is_up`.  Returns the updated state and the emitted event, if any. -/
def observe (upTh downTh : Nat) (s : MState) (isUp : Bool) : MState × Option Ev :=
  match isUp with
  | true =>
    -- consec_up += 1; consec_down = 0
    let cu := s.consecUp + 1
    if upTh ≤ cu then
      if s.status ≠ Status.up then
        -- state = "UP"; sent_down = False; consec_up = 0; send UP alert
        ({ status := Status.up, consecUp := 0, consecDown := 0, sentDown := false },
          some Ev.up)
      else
        ({ s with consecUp := cu, consecDown := 0 }, none)
    else
      ({ s with consecUp := cu, consecDown := 0 }, none)
  | false =>
    -- consec_up = 0; consec_down += 1
    let cd := s.consecDown + 1
    if downTh ≤ cd then
      -- if state != "DOWN": state = "DOWN"
      let st := if s.status ≠ Status.down then Status.down else s.status
      if s.sentDown = false then
        -- send DOWN alert; sent_down = True
        ({ status := st, consecUp := 0, consecDown := cd, sentDown := true },
          some Ev.down)
      else
        ({ status := st, consecUp := 0, consecDown := cd, sentDown := s.sentDown },
          none)
    else
      ({ s with consecUp := 0, consecDown := cd }, none)

/-- Folding `observe` over a list of probe results, threading the state. -/
def runSteps (upTh downTh : Nat) (s : MState) : List Bool → MState
  | [] => s
  | b :: bs => runSteps upTh downTh (observe upTh downTh s b).1 bs

/-- The per-cycle event trace of feeding a list of probe results. -/
def runTrace (upTh downTh : Nat) (s : MState) : List Bool → List (Option Ev)
  | [] => []
  | b :: bs =>
      (observe upTh downTh s b).2 :: runTrace upTh downTh (observe upTh downTh s b).1 bs

/-- The state just before cycle `i` (0-based) when feeding `bs` from the
initial state. -/
def stateAt (upTh downTh : Nat) (bs : List Bool) (i : Nat) : MState :=
  runSteps upTh downTh initState (bs.take i)

/-- The event emitted at cycle `i` (0-based) when feeding `bs` from the
initial state.  The default probe value is irrelevant when `i < bs.length`. -/
def eventAt (upTh downTh : Nat) (bs : List Bool) (i : Nat) : Option Ev :=
  (observe upTh downTh (stateAt upTh downTh bs i) (bs.getD i true)).2

/-- States reachable from the initial state by some sequence of debounce
steps. -/
def Reachable (upTh downTh : Nat) (s : MState) : Prop :=
  ∃ bs : List Bool, runSteps upTh downTh initState bs = s

/-- Modelled from the spec: the `observe` operation as it is spelled out,
step by step, in section 4.2 of the specification.  Used only to compare
the specified algorithm with the `observe` of the code. -/
def observeSpec (upTh downTh : Nat) (s : MState) (isUp : Bool) : MState × Option Ev :=
  if isUp then
    -- 1. increment consecutive_up_count; reset consecutive_down_count to 0
    let s1 : MState := { s with consecUp := s.consecUp + 1, consecDown := 0 }
    if s1.consecUp ≥ upTh then
      if s1.status ≠ Status.up then
        -- set status = UP, reset down_notified, reset consecutive_up_count, emit UP
        ({ s1 with status := Status.up, sentDown := false, consecUp := 0 }, some Ev.up)
      else
        (s1, none)  -- no event (already stable UP)
    else
      (s1, none)  -- no event (still confirming)
  else
    -- 2. reset consecutive_up_count to 0; increment consecutive_down_count
    let s1 : MState := { s with consecUp := 0, consecDown := s.consecDown + 1 }
    if s1.consecDown ≥ downTh then
      -- if status != DOWN: set status = DOWN (not itself what emits the event)
      let s2 : MState := if s1.status ≠ Status.down then { s1 with status := Status.down } else s1
      if s2.sentDown = false then
        ({ s2 with sentDown := true }, some Ev.down)  -- emit DOWN event
      else
        (s2, none)  -- no event (already notified for this episode)
    else
      (s1, none)  -- no event (still confirming)

/-- The confirmed status an event announces. -/
def statusOf : Ev → Status
  | Ev.up => Status.up
  | Ev.down => Status.down

/-- The combined inductive invariant of the monitor state. -/
def MInv (upTh downTh : Nat) (s : MState) : Prop :=
  (s.consecUp = 0 ∨ s.consecDown = 0) ∧
  (s.sentDown = true ↔ s.status = Status.down) ∧
  (1 ≤ upTh → s.status ≠ Status.up → s.consecUp < upTh) ∧
  (1 ≤ downTh → s.status ≠ Status.down → s.consecDown < downTh)

/-- Outcome of the HTTP GET issued by `bamboo_is_up` (line 64): either a
completed response carrying its status code, or a raised
`requests.RequestException` (timeout, connection error, any transport
failure). -/
inductive HttpOutcome where
  | response (code : Nat)
  | requestError
deriving DecidableEq, Repr

/-- The probe `bamboo_is_up` (lines 60-67): `200 <= r.status_code < 400` for a
completed request; `False` when `requests.get` raises a
`requests.RequestException`.  Totality of this function models that the
probe never propagates a transport error to its caller. -/
def bamboo_is_up (r : HttpOutcome) : Bool :=
  match r with
  | HttpOutcome.response code => decide (200 ≤ code) && decide (code < 400)
  | HttpOutcome.requestError => false

/-- The environment variables read at startup (lines 13-32); `none` models
an unset variable. -/
structure Env where
  bambooBaseUrl : Option String
  projectKey : Option String
  alertChannel : Option String
  twilioFrom : Option String
  twilioTo : Option String

/-- Model of the Python `str.rstrip("/")`: drop all trailing slashes. -/
def rstripSlash (s : String) : String :=
  s.dropRightWhile (fun c => c = '/')

/-- Model of the Python `str(...)` on an optional value: `None` prints as `"None"`
(used on `TWILIO_FROM` / `TWILIO_TO` at line 39). -/
def pyStr : Option String → String
  | none => "None"
  | some s => s

/-- Definition `BAMBOO_BASE_URL = (os.getenv("BAMBOO_BASE_URL") or "").rstrip("/")`
(line 13). -/
def BAMBOO_BASE_URL (e : Env) : String :=
  rstripSlash (e.bambooBaseUrl.getD "")

/-- Definition `PROJECT_KEY = os.getenv("PROJECT_KEY", "")` (line 14). -/
def PROJECT_KEY (e : Env) : String :=
  e.projectKey.getD ""

/-- Definition `ALERT_CHANNEL = (os.getenv("ALERT_CHANNEL", "whatsapp")).lower()`
(line 28). -/
def ALERT_CHANNEL (e : Env) : String :=
  (e.alertChannel.getD "whatsapp").toLower

/-- The startup sanity checks (lines 34-40): `true` iff neither
`SystemExit` is raised, i.e. the process goes on to build the target URL
and enter the monitoring loop.  `raise SystemExit("...")` with a string
message exits with status 1 (non-zero). -/
def sanityPasses (e : Env) : Bool :=
  if ¬(BAMBOO_BASE_URL e ≠ "" ∧ PROJECT_KEY e ≠ "") then
    false
  else if ALERT_CHANNEL e = "whatsapp" then
    (pyStr e.twilioFrom).startsWith "whatsapp:" && (pyStr e.twilioTo).startsWith "whatsapp:"
  else
    true

/-- The claimed startup-failure condition: the target base URL or project
identifier is absent (empty/unset), or the addressing of the chosen channel is
malformed for that channel (for `whatsapp`, a sender or recipient not
prefixed with `whatsapp:`; no other channel constrains addressing). -/
def startupFails (e : Env) : Prop :=
  BAMBOO_BASE_URL e = "" ∨ PROJECT_KEY e = "" ∨
    (ALERT_CHANNEL e = "whatsapp" ∧
      ¬((pyStr e.twilioFrom).startsWith "whatsapp:" = true ∧
        (pyStr e.twilioTo).startsWith "whatsapp:" = true))

/-- Unfolding of the `is_up` branch of the loop body. -/
lemma observe_true_eq (upTh downTh : Nat) (s : MState) :
    observe upTh downTh s true =
      if upTh ≤ s.consecUp + 1 then
        if s.status ≠ Status.up then
          ({ status := Status.up, consecUp := 0, consecDown := 0, sentDown := false },
            some Ev.up)
        else ({ s with consecUp := s.consecUp + 1, consecDown := 0 }, none)
      else ({ s with consecUp := s.consecUp + 1, consecDown := 0 }, none) := rfl

/-- Unfolding of the `not is_up` branch of the loop body. -/
lemma observe_false_eq (upTh downTh : Nat) (s : MState) :
    observe upTh downTh s false =
      if downTh ≤ s.consecDown + 1 then
        if s.sentDown = false then
          ({ status := if s.status ≠ Status.down then Status.down else s.status,
             consecUp := 0, consecDown := s.consecDown + 1, sentDown := true },
            some Ev.down)
        else
          ({ status := if s.status ≠ Status.down then Status.down else s.status,
             consecUp := 0, consecDown := s.consecDown + 1, sentDown := s.sentDown },
            none)
      else ({ s with consecUp := 0, consecDown := s.consecDown + 1 }, none) := rfl

/-- In the confirmed-DOWN branch the resulting status is always DOWN. -/
lemma status_down_eq (s : MState) :
    (if s.status ≠ Status.down then Status.down else s.status) = Status.down := by
  by_cases h : s.status = Status.down <;> simp [h]

lemma minv_init (upTh downTh : Nat) : MInv upTh downTh initState := by
  refine ⟨Or.inl rfl, by simp [initState], ?_, ?_⟩ <;>
    · intro h _; simpa [initState] using h

lemma minv_step (upTh downTh : Nat) (s : MState) (b : Bool)
    (h : MInv upTh downTh s) : MInv upTh downTh (observe upTh downTh s b).1 := by
  obtain ⟨h1, h2, h3, h4⟩ := h
  cases b
  · rw [observe_false_eq]
    simp only [status_down_eq]
    split_ifs with hth hsd
    · refine ⟨Or.inl rfl, by simp, ?_, ?_⟩
      · intro hu _; simpa using hu
      · intro _ hdn; simp at hdn
    · have hsd2 : s.sentDown = true := by simpa using hsd
      refine ⟨Or.inl rfl, by simp [hsd2], ?_, ?_⟩
      · intro hu _; simpa using hu
      · intro _ hdn; simp at hdn
    · refine ⟨Or.inl rfl, h2, ?_, ?_⟩
      · intro hu _; simpa using hu
      · intro hd hdn
        have := h4 hd hdn
        simp only [MState.mk.injEq]
        omega
  · rw [observe_true_eq]
    split_ifs with hth hst
    · exact ⟨Or.inl rfl, by simp, by intro _ hu; exact absurd rfl hu, by intro hd _; simpa using hd⟩
    · simp only [ne_eq, not_not] at hst
      refine ⟨Or.inr rfl, by simpa [hst] using h2, ?_, ?_⟩
      · intro _ hu; exact absurd hst hu
      · intro hd _; simpa using hd
    · refine ⟨Or.inr rfl, h2, ?_, ?_⟩
      · intro hu hst2
        have := h3 hu hst2
        simp only []
        omega
      · intro hd _; simpa using hd

lemma minv_runSteps (upTh downTh : Nat) (s : MState) (bs : List Bool)
    (h : MInv upTh downTh s) : MInv upTh downTh (runSteps upTh downTh s bs) := by
  induction bs generalizing s with
  | nil => exact h
  | cons b bs ih => exact ih _ (minv_step upTh downTh s b h)

lemma minv_reachable (upTh downTh : Nat) (s : MState)
    (h : Reachable upTh downTh s) : MInv upTh downTh s := by
  obtain ⟨bs, rfl⟩ := h
  exact minv_runSteps upTh downTh initState bs (minv_init upTh downTh)

/-- The step emits an UP event exactly when the probe succeeded, the up
counter crosses the threshold, and the status was not already UP. -/
lemma observe_eq_up_iff (upTh downTh : Nat) (s : MState) (b : Bool) :
    (observe upTh downTh s b).2 = some Ev.up ↔
      b = true ∧ upTh ≤ s.consecUp + 1 ∧ s.status ≠ Status.up := by
  cases b
  · rw [observe_false_eq]; split_ifs <;> simp
  · rw [observe_true_eq]; split_ifs with hth hst <;> simp_all

/-- The step emits a DOWN event exactly when the probe failed, the down
counter crosses the threshold, and no DOWN alert was sent yet. -/
lemma observe_eq_down_iff (upTh downTh : Nat) (s : MState) (b : Bool) :
    (observe upTh downTh s b).2 = some Ev.down ↔
      b = false ∧ downTh ≤ s.consecDown + 1 ∧ s.sentDown = false := by
  cases b
  · rw [observe_false_eq]; split_ifs with hth hsd <;> simp_all
  · rw [observe_true_eq]; split_ifs <;> simp

/-- After an UP event the status is UP. -/
lemma observe_up_status (upTh downTh : Nat) (s : MState) (b : Bool)
    (h : (observe upTh downTh s b).2 = some Ev.up) :
    (observe upTh downTh s b).1.status = Status.up := by
  rcases (observe_eq_up_iff upTh downTh s b).1 h with ⟨rfl, hth, hst⟩
  rw [observe_true_eq]
  simp [hth, hst]

/-- After a DOWN event the status is DOWN. -/
lemma observe_down_status (upTh downTh : Nat) (s : MState) (b : Bool)
    (h : (observe upTh downTh s b).2 = some Ev.down) :
    (observe upTh downTh s b).1.status = Status.down := by
  rcases (observe_eq_down_iff upTh downTh s b).1 h with ⟨rfl, hth, hsd⟩
  rw [observe_false_eq]
  simp [hth, hsd, status_down_eq]

lemma runSteps_append (upTh downTh : Nat) (s : MState) (l1 l2 : List Bool) :
    runSteps upTh downTh s (l1 ++ l2) =
      runSteps upTh downTh (runSteps upTh downTh s l1) l2 := by
  induction l1 generalizing s with
  | nil => rfl
  | cons b bs ih => simpa [runSteps] using ih (observe upTh downTh s b).1

lemma stateAt_succ (upTh downTh : Nat) (bs : List Bool) (i : Nat)
    (h : i < bs.length) :
    stateAt upTh downTh bs (i + 1) =
      (observe upTh downTh (stateAt upTh downTh bs i) (bs.getD i true)).1 := by
  unfold stateAt
  rw [List.take_succ, runSteps_append]
  have hget : bs[i]? = some bs[i] := List.getElem?_eq_getElem h
  rw [hget]
  simp [runSteps, List.getD, hget]

lemma stateAt_reachable (upTh downTh : Nat) (bs : List Bool) (i : Nat) :
    Reachable upTh downTh (stateAt upTh downTh bs i) :=
  ⟨bs.take i, rfl⟩

/-- C1: the debounce step of the loop body coincides, on every state,
threshold pair and probe result, with the `observe` algorithm of the spec:
a true observation increments the up counter and zeroes the down counter,
and on crossing `UP_THRESHOLD` with status not UP it confirms UP, clears
`down_notified`, resets the up counter and emits the UP event (no event in
any other true-branch case); a false observation zeroes the up counter and
increments the down counter, and on crossing `DOWN_THRESHOLD` it sets
status DOWN if needed and emits the DOWN event exactly when
`down_notified` was false, setting it true. -/
theorem claim_C1_step_follows_spec (upTh downTh : Nat) (s : MState) (b : Bool) :
    observe upTh downTh s b = observeSpec upTh downTh s b := by
  cases b
  · rw [observe_false_eq]
    unfold observeSpec
    by_cases hd : s.status = Status.down <;> by_cases hsd : s.sentDown = false <;>
      simp [hd, hsd]
  · rw [observe_true_eq]
    unfold observeSpec
    by_cases hu : s.status = Status.up <;> simp [hu]

/-- C5 (as stated, refuted): with thresholds (up=3, down=2) and input
`[false, true, false, false]`, cycle 3 emits no event — the single DOWN
event is not emitted after cycle 3. -/
theorem claim_C5_counterexample :
    eventAt 3 2 [false, true, false, false] 2 = none := by decide

/-- C5 (amended): with thresholds (up=3, down=2), feeding
`[false, true, false, false]` from the initial state emits exactly one
event, a DOWN event, after cycle 4 (cycles 1-3 emit nothing). -/
theorem claim_C5_scenario_c :
    runTrace 3 2 initState [false, true, false, false] =
      [none, none, none, some Ev.down] := by decide

/-- C7: the probe returns true exactly when the HTTP request completes
with a status code between 200 and 399 inclusive; a raised transport
error yields false, and the probe is a total function into Bool (it never
propagates an exception). -/
theorem claim_C7_probe (r : HttpOutcome) :
    bamboo_is_up r = true ↔
      ∃ c : Nat, r = HttpOutcome.response c ∧ 200 ≤ c ∧ c ≤ 399 := by
  cases r with
  | response c =>
      simp only [bamboo_is_up, Bool.and_eq_true, decide_eq_true_eq,
        HttpOutcome.response.injEq]
      constructor
      · rintro ⟨h1, h2⟩; exact ⟨c, rfl, h1, by omega⟩
      · rintro ⟨c2, rfl, h1, h2⟩; exact ⟨h1, by omega⟩
  | requestError => simp [bamboo_is_up]

/-- C8: startup enters the monitoring loop exactly when the processed base
URL and project key are nonempty and, when the chosen channel is
`whatsapp`, both Twilio addresses start with `whatsapp:`; in every other
configuration the sanity checks raise `SystemExit` (non-zero exit) before
the loop. -/
theorem claim_C8_sanity (e : Env) :
    sanityPasses e = true ↔ ¬ startupFails e := by
  unfold sanityPasses startupFails
  split_ifs with h1 h2 <;> simp_all

/-- C2: at most one UP event per UP episode and at most one DOWN event
per DOWN episode: whenever two cycles `i < j` of a probe trace emit the
same event, there is a cycle between them after which the status differs
from the announced one, so the two events lie in different episodes. -/
theorem claim_C2_one_event_per_episode (upTh downTh : Nat) (bs : List Bool)
    (i j : Nat) (e : Ev) (hij : i < j) (_hj : j < bs.length)
    (hi : eventAt upTh downTh bs i = some e)
    (hjE : eventAt upTh downTh bs j = some e) :
    ∃ k, i ≤ k ∧ k < j ∧ (stateAt upTh downTh bs (k + 1)).status ≠ statusOf e := by
  unfold eventAt at hjE
  refine ⟨j - 1, by omega, by omega, ?_⟩
  have hk1 : j - 1 + 1 = j := by omega
  rw [hk1]
  cases e with
  | up =>
      have h := (observe_eq_up_iff upTh downTh (stateAt upTh downTh bs j)
        (bs.getD j true)).1 hjE
      exact h.2.2
  | down =>
      have hinv := minv_reachable upTh downTh _ (stateAt_reachable upTh downTh bs j)
      have h := (observe_eq_down_iff upTh downTh (stateAt upTh downTh bs j)
        (bs.getD j true)).1 hjE
      intro hst
      have : (stateAt upTh downTh bs j).sentDown = true := hinv.2.1.2 hst
      rw [h.2.2] at this
      cases this

/-- C2 witness: with both thresholds 1 and trace `[true, false, true]`,
UP events fire at cycles 1 and 3, and the status after some intermediate
cycle is not UP. -/
theorem claim_C2_witness :
    ∃ k, 0 ≤ k ∧ k < 2 ∧ (stateAt 1 1 [true, false, true] (k + 1)).status ≠ statusOf Ev.up :=
  claim_C2_one_event_per_episode 1 1 [true, false, true] 0 2 Ev.up
    (by decide) (by decide) (by decide) (by decide)

/-- C3: in any reachable state, the status changes on a cycle only when
the consecutive counter for the new value reaches its threshold exactly
on that cycle, and a threshold crossing while the status differs is never
skipped. -/
theorem claim_C3_threshold_transitions (upTh downTh : Nat)
    (hup : 1 ≤ upTh) (hdn : 1 ≤ downTh) (s : MState)
    (hs : Reachable upTh downTh s) (b : Bool) :
    ((observe upTh downTh s b).1.status ≠ s.status →
      (b = true ∧ (observe upTh downTh s b).1.status = Status.up ∧
        s.consecUp + 1 = upTh) ∨
      (b = false ∧ (observe upTh downTh s b).1.status = Status.down ∧
        s.consecDown + 1 = downTh)) ∧
    (b = true → s.status ≠ Status.up → upTh ≤ s.consecUp + 1 →
      (observe upTh downTh s b).1.status = Status.up) ∧
    (b = false → s.status ≠ Status.down → downTh ≤ s.consecDown + 1 →
      (observe upTh downTh s b).1.status = Status.down) := by
  obtain ⟨h1, h2, h3, h4⟩ := minv_reachable upTh downTh s hs
  refine ⟨?_, ?_, ?_⟩
  · intro hch
    cases b
    · right
      rw [observe_false_eq] at hch ⊢
      simp only [status_down_eq] at hch ⊢
      split_ifs at hch ⊢ with hth hsd
      · have hnd : s.status ≠ Status.down := fun hd => hch (hd.symm)
        exact ⟨trivial, rfl, by have := h4 hdn hnd; omega⟩
      · have hnd : s.status ≠ Status.down := fun hd => hch (hd.symm)
        exact ⟨trivial, rfl, by have := h4 hdn hnd; omega⟩
      · exact absurd rfl hch
    · left
      rw [observe_true_eq] at hch ⊢
      split_ifs at hch ⊢ with hth hst
      · exact ⟨rfl, rfl, by have := h3 hup hst; omega⟩
      · exact absurd rfl hch
      · exact absurd rfl hch
  · rintro rfl hst hth
    rw [observe_true_eq]
    simp [hth, hst]
  · rintro rfl hst hth
    rw [observe_false_eq]
    simp only [status_down_eq]
    split_ifs with h <;> simp_all

/-- C3 witness: the transition characterisation instantiated at the
initial state with thresholds (2, 1) and a true probe. -/
theorem claim_C3_witness :
    ((observe 2 1 initState true).1.status ≠ initState.status →
      (true = true ∧ (observe 2 1 initState true).1.status = Status.up ∧
        initState.consecUp + 1 = 2) ∨
      (true = false ∧ (observe 2 1 initState true).1.status = Status.down ∧
        initState.consecDown + 1 = 1)) ∧
    (true = true → initState.status ≠ Status.up → 2 ≤ initState.consecUp + 1 →
      (observe 2 1 initState true).1.status = Status.up) ∧
    (true = false → initState.status ≠ Status.down → 1 ≤ initState.consecDown + 1 →
      (observe 2 1 initState true).1.status = Status.down) :=
  claim_C3_threshold_transitions 2 1 (by decide) (by decide) initState ⟨[], rfl⟩ true

/-- C4 (as stated, refuted): the state reached by feeding `[true, true]`
with thresholds (2, 1) — the confirmed transition to UP — is reachable and
has both consecutive counters zero, so it is not the case that exactly one
of them is nonzero. -/
theorem claim_C4_counterexample :
    Reachable 2 1 (runSteps 2 1 initState [true, true]) ∧
    ¬(((runSteps 2 1 initState [true, true]).consecUp ≠ 0 ∧
        (runSteps 2 1 initState [true, true]).consecDown = 0) ∨
      ((runSteps 2 1 initState [true, true]).consecUp = 0 ∧
        (runSteps 2 1 initState [true, true]).consecDown ≠ 0)) :=
  ⟨⟨[true, true], rfl⟩, by decide⟩

/-- C4 (amended): in every reachable state at most one of the two
consecutive counters is nonzero (each probe result zeroes the opposite
counter); both may be zero at once. -/
theorem claim_C4_at_most_one_nonzero (upTh downTh : Nat) (s : MState)
    (hs : Reachable upTh downTh s) :
    s.consecUp = 0 ∨ s.consecDown = 0 :=
  (minv_reachable upTh downTh s hs).1

/-- C4 witness: the amended invariant at the state after one true probe. -/
theorem claim_C4_witness :
    (runSteps 2 1 initState [true]).consecUp = 0 ∨
      (runSteps 2 1 initState [true]).consecDown = 0 :=
  claim_C4_at_most_one_nonzero 2 1 (runSteps 2 1 initState [true]) ⟨[true], rfl⟩

/-- C6: in every reachable state, `sent_down` is false whenever the status
is not DOWN. -/
theorem claim_C6_notified_only_down (upTh downTh : Nat) (s : MState)
    (hs : Reachable upTh downTh s) (h : s.status ≠ Status.down) :
    s.sentDown = false := by
  have h2 := (minv_reachable upTh downTh s hs).2.1
  cases hsd : s.sentDown
  · rfl
  · exact absurd (h2.1 hsd) h

/-- C6 witness: the invariant at the initial state with thresholds (2, 1). -/
theorem claim_C6_witness : initState.sentDown = false :=
  claim_C6_notified_only_down 2 1 initState ⟨[], rfl⟩ (by decide)

/-- A true observation leaves the status either UP or unchanged. -/
lemma observe_true_status (upTh downTh : Nat) (s : MState) :
    (observe upTh downTh s true).1.status = Status.up ∨
      (observe upTh downTh s true).1.status = s.status := by
  rw [observe_true_eq]
  split_ifs <;> simp

/-- C9: in every reachable state, `sent_down` holds exactly when the
status is DOWN, and consequently a debounce step emits a DOWN event
exactly when the status transitions to DOWN on that step — never on a
later cycle of the same DOWN episode. -/
theorem claim_C9_down_event_iff_transition (upTh downTh : Nat) (s : MState)
    (b : Bool) (hs : Reachable upTh downTh s) :
    (s.sentDown = true ↔ s.status = Status.down) ∧
    ((observe upTh downTh s b).2 = some Ev.down ↔
      (s.status ≠ Status.down ∧
        (observe upTh downTh s b).1.status = Status.down)) := by
  obtain ⟨h1, h2, h3, h4⟩ := minv_reachable upTh downTh s hs
  refine ⟨h2, ?_, ?_⟩
  · intro hev
    have h := (observe_eq_down_iff upTh downTh s b).1 hev
    refine ⟨?_, observe_down_status upTh downTh s b hev⟩
    intro hst
    rw [h2.2 hst] at h
    exact absurd h.2.2 (by simp)
  · rintro ⟨hst, hdown⟩
    have hsd : s.sentDown = false := by
      cases hv : s.sentDown
      · rfl
      · exact absurd (h2.1 hv) hst
    cases b
    · rw [observe_eq_down_iff]
      refine ⟨rfl, ?_, hsd⟩
      by_contra hth
      rw [observe_false_eq, if_neg hth] at hdown
      exact hst hdown
    · rcases observe_true_status upTh downTh s with h | h
      · exact absurd (h.symm.trans hdown) (by simp)
      · exact absurd (h.symm.trans hdown) hst

/-- C9 witness: the characterisation at the initial state with thresholds
(2, 1) and a false probe (which confirms DOWN and emits the DOWN event). -/
theorem claim_C9_witness :
    (initState.sentDown = true ↔ initState.status = Status.down) ∧
    ((observe 2 1 initState false).2 = some Ev.down ↔
      (initState.status ≠ Status.down ∧
        (observe 2 1 initState false).1.status = Status.down)) :=
  claim_C9_down_event_iff_transition 2 1 initState false ⟨[], rfl⟩

/-- C10: in every reachable state at most one consecutive counter is
nonzero; both are zero in the initial state, and both are zero immediately
after any step that emits an UP event (the confirmed transition to UP
resets `consec_up` while the true branch zeroes `consec_down`). -/
theorem claim_C10_counters (upTh downTh : Nat) (s t : MState) (b : Bool)
    (hs : Reachable upTh downTh s)
    (ht : (observe upTh downTh t b).2 = some Ev.up) :
    (s.consecUp = 0 ∨ s.consecDown = 0) ∧
    (initState.consecUp = 0 ∧ initState.consecDown = 0) ∧
    ((observe upTh downTh t b).1.consecUp = 0 ∧
      (observe upTh downTh t b).1.consecDown = 0) := by
  refine ⟨(minv_reachable upTh downTh s hs).1, ⟨rfl, rfl⟩, ?_⟩
  obtain ⟨rfl, hth, hst⟩ := (observe_eq_up_iff upTh downTh t b).1 ht
  rw [observe_true_eq]
  simp [hth, hst]

/-- C10 witness: instantiated at the initial state with thresholds (1, 1),
where a single true probe confirms UP. -/
theorem claim_C10_witness :
    (initState.consecUp = 0 ∨ initState.consecDown = 0) ∧
    (initState.consecUp = 0 ∧ initState.consecDown = 0) ∧
    ((observe 1 1 initState true).1.consecUp = 0 ∧
      (observe 1 1 initState true).1.consecDown = 0) :=
  claim_C10_counters 1 1 initState initState true ⟨[], rfl⟩ (by decide)
